import Mathlib

/-!
Shallow embedding of the wise-paper-api service (src/main.py).

The service is a FastAPI application with seven prompt endpoints, each of
which parses a flat JSON record (a pydantic model), interpolates the parsed
fields into a fixed Korean prompt template, and forwards the prompt to the
Anthropic client through the common function call_claude.  call_claude maps
provider failures to HTTP errors (401 / 429 / 500) and wraps a successful
first text block as the JSON object with keys status and result.

Modelling decisions:
- A JSON field value is a JVal (string, number, or null); a raw request
  record holds an Option JVal per declared field, where none means the field
  is absent from the request body.
- pydantic validation is embedded per field: a required str field accepts
  exactly a present string; an Optional[str] field with default d maps
  absence to some d, null to none (Python None), and a string to itself;
  an Optional[int] field additionally coerces numeric strings via
  pyIntOfString (a model of int(str)) and rejects non-coercible strings.
  A failed validation yields the FastAPI 422 response before the handler
  (and hence the Anthropic client) is ever reached.
- The Anthropic client is a function from the assembled API request (fixed
  model identifier, max_tokens, system prompt, plus the user message) to a
  ProviderOutcome: a successful message (a list of text content blocks) or
  one of the exception classes distinguished by call_claude.
- Every routed computation also returns the list of API requests issued to
  the client, so that the number of provider calls is part of the model.
- Python truthiness in the templates (x or default) is embedded as pyOr;
  f-string rendering of an Optional value prints the literal None when the
  value is Python None, as Python does.
-/

namespace WisePaper

/-- A JSON field value as it arrives in the request body. -/
inductive JVal where
  | s (v : String)
  | n (v : Int)
  | null
deriving DecidableEq

/-- pydantic validation of a required `str` field: the field must be present
and must be a string; absence, null and numbers are validation errors. -/
def parseStr : Option JVal → Except String String
  | some (JVal.s v) => .ok v
  | some JVal.null => .error "none is not an allowed value"
  | some (JVal.n _) => .error "str type expected"
  | none => .error "field required"

/-- pydantic validation of an `Optional[str]` field with default `d`:
absence yields the default, an explicit null yields Python None (embedded
as `none`), a string is taken as is, a number is a validation error. -/
def parseOptStr (d : String) : Option JVal → Except String (Option String)
  | none => .ok (some d)
  | some JVal.null => .ok none
  | some (JVal.s v) => .ok (some v)
  | some (JVal.n _) => .error "str type expected"

/-- Digit-string to Nat, the core of Python `int(str)`: `none` on the empty
string or on any non-digit character. -/
def digitsToNat? : List Char → Option Nat
  | [] => none
  | cs => go cs 0
where
  go : List Char → Nat → Option Nat
    | [], acc => some acc
    | c :: rest, acc =>
      if c.isDigit then go rest (acc * 10 + (c.toNat - 48)) else none

/-- Model of Python `int(str)` (as used by pydantic to coerce a string into
an int field): an optional leading minus sign followed by digits. -/
def pyIntOfString (s : String) : Option Int :=
  match s.data with
  | '-' :: rest => (digitsToNat? rest).map (fun m => -(m : Int))
  | ds => (digitsToNat? ds).map (fun m => (m : Int))

/-- pydantic validation of an `Optional[int]` field with default `d`:
absence yields the default, null yields Python None, a number is taken as
is, a string is coerced via `int(str)` and rejected when not coercible. -/
def parseOptInt (d : Int) : Option JVal → Except String (Option Int)
  | none => .ok (some d)
  | some JVal.null => .ok none
  | some (JVal.n v) => .ok (some v)
  | some (JVal.s v) =>
    match pyIntOfString v with
    | some m => .ok (some m)
    | none => .error "value is not a valid integer"

/-- Python truthiness fallback `x or d` for an Optional[str] value:
both None and the empty string fall back to `d`. -/
def pyOr : Option String → String → String
  | none, d => d
  | some s, d => if s = "" then d else s

/-- f-string rendering of an Optional[str] value: Python prints the literal
text None for the None value. -/
def fstr : Option String → String
  | none => "None"
  | some s => s

/-- f-string rendering of an Optional[int] value. -/
def fstrInt : Option Int → String
  | none => "None"
  | some n => toString n

/-! ## Request models (src/main.py lines 31-73)

Each pydantic model is embedded twice: the raw record of Option JVal fields
as received, and the validated record produced by parsing. -/

structure TopicRequest where
  topic : String
  field : Option String
  keywords : Option String
  purpose : Option String
deriving DecidableEq

structure RawTopicRequest where
  topic : Option JVal
  field : Option JVal
  keywords : Option JVal
  purpose : Option JVal
deriving DecidableEq

def parseTopicRequest (raw : RawTopicRequest) : Except String TopicRequest :=
  match parseStr raw.topic, parseOptStr "" raw.field,
      parseOptStr "" raw.keywords, parseOptStr "" raw.purpose with
  | .ok t, .ok f, .ok k, .ok p => .ok ⟨t, f, k, p⟩
  | .error e, _, _, _ => .error e
  | _, .error e, _, _ => .error e
  | _, _, .error e, _ => .error e
  | _, _, _, .error e => .error e

structure LitReviewRequest where
  topic : String
  field : Option String
  keywords : Option String
  scope : Option String
  known_papers : Option String
deriving DecidableEq

structure RawLitReviewRequest where
  topic : Option JVal
  field : Option JVal
  keywords : Option JVal
  scope : Option JVal
  known_papers : Option JVal
deriving DecidableEq

def parseLitReviewRequest (raw : RawLitReviewRequest) :
    Except String LitReviewRequest :=
  match parseStr raw.topic, parseOptStr "" raw.field,
      parseOptStr "" raw.keywords, parseOptStr "최근 5년" raw.scope,
      parseOptStr "" raw.known_papers with
  | .ok t, .ok f, .ok k, .ok sc, .ok kp => .ok ⟨t, f, k, sc, kp⟩
  | .error e, _, _, _, _ => .error e
  | _, .error e, _, _, _ => .error e
  | _, _, .error e, _, _ => .error e
  | _, _, _, .error e, _ => .error e
  | _, _, _, _, .error e => .error e

structure StructureRequest where
  topic : String
  field : Option String
  keywords : Option String
  paper_type : Option String
  methodology : Option String
deriving DecidableEq

structure RawStructureRequest where
  topic : Option JVal
  field : Option JVal
  keywords : Option JVal
  paper_type : Option JVal
  methodology : Option JVal
deriving DecidableEq

def parseStructureRequest (raw : RawStructureRequest) :
    Except String StructureRequest :=
  match parseStr raw.topic, parseOptStr "" raw.field,
      parseOptStr "" raw.keywords, parseOptStr "원저" raw.paper_type,
      parseOptStr "" raw.methodology with
  | .ok t, .ok f, .ok k, .ok pt, .ok m => .ok ⟨t, f, k, pt, m⟩
  | .error e, _, _, _, _ => .error e
  | _, .error e, _, _, _ => .error e
  | _, _, .error e, _, _ => .error e
  | _, _, _, .error e, _ => .error e
  | _, _, _, _, .error e => .error e

structure IntroRequest where
  topic : String
  field : Option String
  keywords : Option String
  language : Option String
deriving DecidableEq

structure RawIntroRequest where
  topic : Option JVal
  field : Option JVal
  keywords : Option JVal
  language : Option JVal
deriving DecidableEq

def parseIntroRequest (raw : RawIntroRequest) : Except String IntroRequest :=
  match parseStr raw.topic, parseOptStr "" raw.field,
      parseOptStr "" raw.keywords, parseOptStr "한국어" raw.language with
  | .ok t, .ok f, .ok k, .ok l => .ok ⟨t, f, k, l⟩
  | .error e, _, _, _ => .error e
  | _, .error e, _, _ => .error e
  | _, _, .error e, _ => .error e
  | _, _, _, .error e => .error e

structure AbstractRequest where
  topic : String
  field : Option String
  keywords : Option String
  word_count : Option Int
  language : Option String
deriving DecidableEq

structure RawAbstractRequest where
  topic : Option JVal
  field : Option JVal
  keywords : Option JVal
  word_count : Option JVal
  language : Option JVal
deriving DecidableEq

def parseAbstractRequest (raw : RawAbstractRequest) :
    Except String AbstractRequest :=
  match parseStr raw.topic, parseOptStr "" raw.field,
      parseOptStr "" raw.keywords, parseOptInt 250 raw.word_count,
      parseOptStr "한국어" raw.language with
  | .ok t, .ok f, .ok k, .ok w, .ok l => .ok ⟨t, f, k, w, l⟩
  | .error e, _, _, _, _ => .error e
  | _, .error e, _, _, _ => .error e
  | _, _, .error e, _, _ => .error e
  | _, _, _, .error e, _ => .error e
  | _, _, _, _, .error e => .error e

structure JournalRequest where
  topic : String
  field : Option String
  keywords : Option String
  index_type : Option String
deriving DecidableEq

structure RawJournalRequest where
  topic : Option JVal
  field : Option JVal
  keywords : Option JVal
  index_type : Option JVal
deriving DecidableEq

def parseJournalRequest (raw : RawJournalRequest) :
    Except String JournalRequest :=
  match parseStr raw.topic, parseOptStr "" raw.field,
      parseOptStr "" raw.keywords, parseOptStr "SCI/SCIE" raw.index_type with
  | .ok t, .ok f, .ok k, .ok i => .ok ⟨t, f, k, i⟩
  | .error e, _, _, _ => .error e
  | _, .error e, _, _ => .error e
  | _, _, .error e, _ => .error e
  | _, _, _, .error e => .error e

structure ReviewRequest where
  topic : String
  reviewer_comment : String
  language : Option String
deriving DecidableEq

structure RawReviewRequest where
  topic : Option JVal
  reviewer_comment : Option JVal
  language : Option JVal
deriving DecidableEq

def parseReviewRequest (raw : RawReviewRequest) : Except String ReviewRequest :=
  match parseStr raw.topic, parseStr raw.reviewer_comment,
      parseOptStr "한국어" raw.language with
  | .ok t, .ok c, .ok l => .ok ⟨t, c, l⟩
  | .error e, _, _ => .error e
  | _, .error e, _ => .error e
  | _, _, .error e => .error e

/-! ## System prompt and call configuration (src/main.py lines 78-102, 297-301) -/

def SYSTEM_PROMPT : String :=
  "당신은 N2B(Not-But-Because) 프레임워크 기반 논문 작성 전문 AI입니다.\n\n" ++
  "## N2B 프레임워크란?\n" ++
  "- Not: 현재 Best Practice(BP)의 빈틈, 한계, 미해결 문제\n" ++
  "- But: 그럼에도 불구하고 가능한 새로운 접근, 기회\n" ++
  "- Because: 그래서 이 연구가 필요한 이유, 근거\n\n" ++
  "## 빅매치 메이커 철학\n" ++
  "논문 작성자는 빅매치 메이커입니다:\n" ++
  "1. 빅매치를 만들어라 (서론) — 현재 챔피언(BP)과 도전자(내 연구)의 대결 구도\n" ++
  "2. 시합을 시켜라 (본론) — 공정한 조건에서 실제로 붙여봄\n" ++
  "3. 결과를 발표하라 (결론) — 모두가 궁금해하는 그 결과\n\n" ++
  "## 핵심 원칙\n" ++
  "- 대립하는 이름 두 개가 붙어야 빅매치가 성립 (예: \"사후탐지형\" vs \"사전예측형\")\n" ++
  "- 빈틈만 있으면 불만이고, 이름이 붙으면 연구 주제가 됨\n" ++
  "- BP의 계보를 추적하면 연구의 맥락이 보임 (1세대→2세대→3세대→...)\n" ++
  "- 항상 구체적이고 실제적인 내용으로 분석할 것\n" ++
  "- 최신 연구 트렌드를 반영할 것\n\n" ++
  "## 응답 형식\n" ++
  "- 구조화된 텍스트로 응답 (마크다운 대신 텍스트 기호 사용)\n" ++
  "- 이모지를 적절히 활용\n" ++
  "- 한국어로 응답 (영어 요청 시 영어)\n"

/-- One content block of a provider message; the service only ever reads the
text attribute of the first block. -/
inductive ContentBlock where
  | text (t : String)
deriving DecidableEq

/-- A successful provider message: its list of content blocks. -/
structure ProviderMessage where
  content : List ContentBlock
deriving DecidableEq

/-- Outcome of one client.messages.create call: the anthropic client either
returns a message or raises one of the exception classes distinguished in
call_claude. -/
inductive ProviderOutcome where
  | success (m : ProviderMessage)
  | authError
  | rateLimitError
  | otherError (msg : String)
deriving DecidableEq

/-- The argument record of client.messages.create as assembled by
call_claude: a fixed model identifier, token budget and system prompt, and
the single user message. -/
structure ApiRequest where
  model : String
  max_tokens : Nat
  system : String
  user_message : String
deriving DecidableEq

/-- The fixed call configuration of call_claude around a given prompt. -/
def claudeRequest (prompt : String) : ApiRequest :=
  { model := "claude-sonnet-4-20250514"
    max_tokens := 4000
    system := SYSTEM_PROMPT
    user_message := prompt }

/-- The anthropic client, abstracted as a function from the issued API
request to the provider outcome. -/
def Client : Type := ApiRequest → ProviderOutcome

/-- An HTTP response of the service: either a 200 JSON object of string
fields, or an HTTP error with a status code and a detail message. -/
inductive Response where
  | json (body : List (String × String))
  | error (status : Nat) (detail : String)
deriving DecidableEq

/-- call_claude (src/main.py lines 294-312), instrumented with the list of
API requests issued to the client.  A successful message with an empty
content list makes message.content[0] raise IndexError (message: list index
out of range), which the generic handler turns into HTTP 500 like any other
non-auth, non-rate-limit exception. -/
def call_claude (client : Client) (prompt : String) :
    Response × List ApiRequest :=
  (match client (claudeRequest prompt) with
    | .success m =>
      match m.content with
      | [] => .error 500 ("AI 분석 중 오류: " ++ "list index out of range")
      | .text t :: _ => .json [("status", "ok"), ("result", t)]
    | .authError => .error 401 "API 키가 유효하지 않습니다"
    | .rateLimitError =>
      .error 429 "API 호출 한도 초과. 잠시 후 다시 시도해주세요"
    | .otherError msg => .error 500 ("AI 분석 중 오류: " ++ msg),
   [claudeRequest prompt])

/-! ## Prompt templates and handlers (src/main.py lines 107-289) -/

/-- GET / -/
def root : Response :=
  .json [("service", "슬기로운 논문생활 API"), ("status", "running"),
    ("version", "1.0")]

/-- GET /health -/
def health : Response := .json [("status", "ok")]

/-- The /health route never touches the client: it returns the static body
and issues no API request. -/
def healthRoute (_client : Client) : Response × List ApiRequest :=
  (health, [])

/-- Prompt of POST /api/topic (f-string of analyze_topic). -/
def topicPrompt (req : TopicRequest) : String :=
  "다음 연구 주제를 N2B 프레임워크로 분석해주세요.\n\n연구 주제: " ++
  req.topic ++
  "\n분야: " ++ pyOr req.field "미지정" ++
  "\n키워드: " ++ pyOr req.keywords "미지정" ++
  "\n연구 목적: " ++ pyOr req.purpose "미지정" ++
  "\n\n다음 구조로 분석해주세요:\n\n" ++
  "1. 현재 Best Practice (BP) 3가지 — 이 분야에서 현재 가장 잘 되고 있는 것\n" ++
  "2. N2B 구조 분석:\n" ++
  "   - Not (현재 BP의 빈틈 5가지) — 구체적 문헌 인용 포함\n" ++
  "   - But (그럼에도 불구하고 가능한 새 접근)\n" ++
  "   - Because (그래서 이 연구가 필요한 이유, 4가지 방향 제시)\n" ++
  "3. 논문화 가능성 (참신성/실현성/기여도/시의성 각 별점)\n" ++
  "4. 추천 빅매치 구도 3가지 — 반드시 대립하는 이름 쌍으로 (예: \"OO형\" vs \"XX형\")\n" ++
  "5. 다음 단계 안내\n\n" ++
  "텍스트 기호(━, ❌, ⚡, ✅, 🏆, 🥊, ✦, 💡)를 활용하여 구조화해주세요."

/-- POST /api/topic -/
def analyze_topic (client : Client) (req : TopicRequest) :
    Response × List ApiRequest :=
  call_claude client (topicPrompt req)

/-- Prompt of POST /api/literature (f-string of literature_review). -/
def litReviewPrompt (req : LitReviewRequest) : String :=
  "다음 연구 주제에 대한 N2B 문헌리뷰 맵을 만들어주세요.\n\n연구 주제: " ++
  req.topic ++
  "\n분야: " ++ pyOr req.field "미지정" ++
  "\n키워드: " ++ pyOr req.keywords "미지정" ++
  "\n검색 범위: " ++ fstr req.scope ++
  "\n연구자 지정 논문: " ++ pyOr req.known_papers "없음" ++
  "\n\n다음 구조로 작성해주세요:\n\n" ++
  "1. N2B 계보 (세대별 진화):\n" ++
  "   - 1세대 (초기 접근): 성과 → Not(빈틈) → 대표문헌\n" ++
  "   - 2세대 (방법론 발전): 성과 → Not(빈틈) → 대표문헌\n" ++
  "   - 3세대 (현재 BP): 성과 → Not(빈틈) → 대표문헌\n" ++
  "   - 4세대 (연구 기회): 가능성 → Not(미개척) → ⭐ 연구 기회!\n\n" ++
  "2. 핵심 선행연구 분류 (분야별로 실제 저자명과 연도 포함)\n\n" ++
  "3. 연구 갭 요약 — 핵심 빈틈 한 문장\n\n" ++
  "각 세대 사이에 \"↓ 빈틈이 동기가 되어...\" 화살표로 연결해주세요."

/-- POST /api/literature -/
def literature_review (client : Client) (req : LitReviewRequest) :
    Response × List ApiRequest :=
  call_claude client (litReviewPrompt req)

/-- Prompt of POST /api/structure (f-string of paper_structure). -/
def structurePrompt (req : StructureRequest) : String :=
  "다음 연구 주제에 대한 N2B 기반 논문 구조를 설계해주세요.\n\n연구 주제: " ++
  req.topic ++
  "\n분야: " ++ pyOr req.field "미지정" ++
  "\n키워드: " ++ pyOr req.keywords "미지정" ++
  "\n논문 유형: " ++ fstr req.paper_type ++
  "\n방법론: " ++ pyOr req.methodology "미지정" ++
  "\n\n다음 구조로 설계해주세요:\n\n" ++
  "1. 논문 제목 (한국어 + 영어) — 3가지 후보\n" ++
  "2. 전체 구조 (N2B 매핑):\n" ++
  "   - 서론 (Not 영역): 배경 → 문제 제기 → 연구 목적\n" ++
  "   - 이론적 배경/문헌리뷰: BP 계보\n" ++
  "   - 연구 방법 (But 영역): 제안하는 방법론\n" ++
  "   - 결과 및 분석: 빅매치 시합 결과\n" ++
  "   - 고찰 (Because 영역): 의미와 기여\n" ++
  "   - 결론\n" ++
  "3. 각 장의 예상 분량 (페이지 수)\n" ++
  "4. 핵심 Figure/Table 제안\n" ++
  "5. 빅매치 구도 확인"

/-- POST /api/structure -/
def paper_structure (client : Client) (req : StructureRequest) :
    Response × List ApiRequest :=
  call_claude client (structurePrompt req)

/-- Prompt of POST /api/introduction (f-string of write_introduction). -/
def introPrompt (req : IntroRequest) : String :=
  "다음 연구 주제에 대한 N2B 기반 서론 초안을 작성해주세요.\n\n연구 주제: " ++
  req.topic ++
  "\n분야: " ++ pyOr req.field "미지정" ++
  "\n키워드: " ++ pyOr req.keywords "미지정" ++
  "\n언어: " ++ fstr req.language ++
  "\n\nN2B 4단락 구조로 서론을 작성해주세요:\n\n" ++
  "¶1-2 (배경 + 문제): 이 분야의 중요성과 현재 BP 소개\n" ++
  "¶3 (Not — 빈틈): 기존 접근의 한계와 미해결 문제\n" ++
  "¶4 (But/Because — 연구 목적): 본 연구의 접근 방식과 필요성\n\n" ++
  "각 단락에 [N2B 구조 표시]를 포함하고, 참고문헌 위치를 (Author, Year) 형식으로 표시해주세요.\n" ++
  "서론 뒤에 \"N2B 흐름 분석\"도 추가해주세요."

/-- POST /api/introduction -/
def write_introduction (client : Client) (req : IntroRequest) :
    Response × List ApiRequest :=
  call_claude client (introPrompt req)

/-- Prompt of POST /api/abstract (f-string of generate_abstract). -/
def abstractPrompt (req : AbstractRequest) : String :=
  "다음 연구 주제에 대한 N2B 기반 초록을 작성해주세요.\n\n연구 주제: " ++
  req.topic ++
  "\n분야: " ++ pyOr req.field "미지정" ++
  "\n키워드: " ++ pyOr req.keywords "미지정" ++
  "\n목표 단어 수: " ++ fstrInt req.word_count ++
  "단어\n언어: " ++ fstr req.language ++
  "\n\nN2B 초록 구조:\n" ++
  "- 문장 1-2 (배경+문제): Not — 현재 상황의 빈틈\n" ++
  "- 문장 3-5 (방법+결과): But — 본 연구의 접근과 주요 결과\n" ++
  "- 문장 6-7 (의의): Because — 이 연구가 중요한 이유\n\n" ++
  "초록 뒤에 추천 키워드 5개도 제시해주세요."

/-- POST /api/abstract -/
def generate_abstract (client : Client) (req : AbstractRequest) :
    Response × List ApiRequest :=
  call_claude client (abstractPrompt req)

/-- Prompt of POST /api/journal (f-string of match_journal). -/
def journalPrompt (req : JournalRequest) : String :=
  "다음 연구 주제에 적합한 학술지를 추천해주세요.\n\n연구 주제: " ++
  req.topic ++
  "\n분야: " ++ pyOr req.field "미지정" ++
  "\n키워드: " ++ pyOr req.keywords "미지정" ++
  "\n희망 인덱스: " ++ fstr req.index_type ++
  "\n\n각 저널에 대해:\n" ++
  "1. 저널명 (약칭)\n" ++
  "2. 출판사\n" ++
  "3. Impact Factor (최근)\n" ++
  "4. 인덱스 (SCI/SCIE/SCOPUS/KCI)\n" ++
  "5. 평균 심사 기간\n" ++
  "6. 수락율 (추정)\n" ++
  "7. 이 주제와의 적합도 (★ 표시)\n" ++
  "8. 추천 이유\n\n" ++
  "최소 5개 저널을 추천하되, 국제 저널과 국내 저널을 섞어주세요.\n" ++
  "난이도 순서대로 (도전적 → 현실적 → 안전) 정렬해주세요."

/-- POST /api/journal -/
def match_journal (client : Client) (req : JournalRequest) :
    Response × List ApiRequest :=
  call_claude client (journalPrompt req)

/-- Prompt of POST /api/review-response (f-string of review_response). -/
def reviewPrompt (req : ReviewRequest) : String :=
  "다음 심사 의견에 대한 N2B 기반 답변을 작성해주세요.\n\n연구 주제: " ++
  req.topic ++
  "\n심사 의견: " ++ req.reviewer_comment ++
  "\n언어: " ++ fstr req.language ++
  "\n\nN2B 답변 구조:\n" ++
  "1. Not (심사위원 지적 요약): 정확히 무엇을 지적했는가\n" ++
  "2. But (수용/반박): 타당한 부분은 수용, 오해는 근거로 반박\n" ++
  "3. Because (수정/보완 근거): 왜 이렇게 수정했는가 / 왜 원래가 맞는가\n\n" ++
  "다음 형식으로 작성:\n" ++
  "- Response to Reviewer: 답변 (공손하되 논리적으로)\n" ++
  "- Action Taken: 수정 내용 (구체적으로)\n" ++
  "- Revised Manuscript: 수정된 부분 표시\n\n" ++
  "심사위원을 존중하면서도 연구의 가치를 지키는 균형 잡힌 답변을 작성해주세요."

/-- POST /api/review-response -/
def review_response (client : Client) (req : ReviewRequest) :
    Response × List ApiRequest :=
  call_claude client (reviewPrompt req)

/-! ## Routed endpoints: request-schema validation before the handler

FastAPI validates the request body against the pydantic model before the
handler runs; a validation failure is answered with HTTP 422 and the
handler — hence the client — is never invoked. -/

def topicEndpoint (client : Client) (raw : RawTopicRequest) :
    Response × List ApiRequest :=
  match parseTopicRequest raw with
  | .error e => (.error 422 e, [])
  | .ok req => analyze_topic client req

def litReviewEndpoint (client : Client) (raw : RawLitReviewRequest) :
    Response × List ApiRequest :=
  match parseLitReviewRequest raw with
  | .error e => (.error 422 e, [])
  | .ok req => literature_review client req

def structureEndpoint (client : Client) (raw : RawStructureRequest) :
    Response × List ApiRequest :=
  match parseStructureRequest raw with
  | .error e => (.error 422 e, [])
  | .ok req => paper_structure client req

def introEndpoint (client : Client) (raw : RawIntroRequest) :
    Response × List ApiRequest :=
  match parseIntroRequest raw with
  | .error e => (.error 422 e, [])
  | .ok req => write_introduction client req

def abstractEndpoint (client : Client) (raw : RawAbstractRequest) :
    Response × List ApiRequest :=
  match parseAbstractRequest raw with
  | .error e => (.error 422 e, [])
  | .ok req => generate_abstract client req

def journalEndpoint (client : Client) (raw : RawJournalRequest) :
    Response × List ApiRequest :=
  match parseJournalRequest raw with
  | .error e => (.error 422 e, [])
  | .ok req => match_journal client req

def reviewEndpoint (client : Client) (raw : RawReviewRequest) :
    Response × List ApiRequest :=
  match parseReviewRequest raw with
  | .error e => (.error 422 e, [])
  | .ok req => review_response client req

/-- A validated request to one of the seven prompt endpoints. -/
inductive StageReq where
  | topic (r : TopicRequest)
  | literature (r : LitReviewRequest)
  | paperStructure (r : StructureRequest)
  | introduction (r : IntroRequest)
  | abstract (r : AbstractRequest)
  | journal (r : JournalRequest)
  | review (r : ReviewRequest)
deriving DecidableEq

/-- Dispatch of a validated request to its handler. -/
def dispatch (client : Client) : StageReq → Response × List ApiRequest
  | .topic r => analyze_topic client r
  | .literature r => literature_review client r
  | .paperStructure r => paper_structure client r
  | .introduction r => write_introduction client r
  | .abstract r => generate_abstract client r
  | .journal r => match_journal client r
  | .review r => review_response client r

/-- The prompt each stage assembles for its request. -/
def promptOf : StageReq → String
  | .topic r => topicPrompt r
  | .literature r => litReviewPrompt r
  | .paperStructure r => structurePrompt r
  | .introduction r => introPrompt r
  | .abstract r => abstractPrompt r
  | .journal r => journalPrompt r
  | .review r => reviewPrompt r

/-- A raw request body addressed to one of the seven prompt endpoints. -/
inductive RawStageReq where
  | topic (r : RawTopicRequest)
  | literature (r : RawLitReviewRequest)
  | paperStructure (r : RawStructureRequest)
  | introduction (r : RawIntroRequest)
  | abstract (r : RawAbstractRequest)
  | journal (r : RawJournalRequest)
  | review (r : RawReviewRequest)
deriving DecidableEq

/-- Routing of a raw body: validation, then the handler. -/
def route (client : Client) : RawStageReq → Response × List ApiRequest
  | .topic r => topicEndpoint client r
  | .literature r => litReviewEndpoint client r
  | .paperStructure r => structureEndpoint client r
  | .introduction r => introEndpoint client r
  | .abstract r => abstractEndpoint client r
  | .journal r => journalEndpoint client r
  | .review r => reviewEndpoint client r

/-- A raw body is missing a required field: the topic on every prompt
endpoint, and additionally the reviewer comment on /api/review-response. -/
def requiredMissing : RawStageReq → Prop
  | .topic r => r.topic = none
  | .literature r => r.topic = none
  | .paperStructure r => r.topic = none
  | .introduction r => r.topic = none
  | .abstract r => r.topic = none
  | .journal r => r.topic = none
  | .review r => r.topic = none ∨ r.reviewer_comment = none

/-- A canned client that always answers with one text block X. -/
def stubClient : Client := fun _ => .success ⟨[.text "X"]⟩

/-- A canned client that always raises the authentication failure. -/
def authFailClient : Client := fun _ => .authError

/-- A canned client that always raises the rate-limit failure. -/
def rateLimitClient : Client := fun _ => .rateLimitError

/-- A canned client that always raises a generic failure with message m. -/
def otherFailClient (m : String) : Client := fun _ => .otherError m

/-- A canned client whose successful message has no content blocks. -/
def emptyContentClient : Client := fun _ => .success ⟨[]⟩

/-! ## Substring machinery for statements about assembled prompts -/

/-- pat occurs contiguously inside l. -/
def infixOf (pat l : List Char) : Prop := ∃ a b : List Char, l = a ++ (pat ++ b)

/-- The string s contains pat as a contiguous substring. -/
def containsStr (s pat : String) : Prop := infixOf pat.data s.data

theorem infixOf_take (pat b : List Char) : infixOf pat (pat ++ b) := ⟨[], b, rfl⟩

theorem infixOf_skip (a : List Char) {pat l : List Char} (h : infixOf pat l) :
    infixOf pat (a ++ l) := by
  obtain ⟨x, y, hxy⟩ := h
  exact ⟨a ++ x, y, by rw [hxy]; simp⟩

/-! ## Inversion of successful validation -/

theorem parseTopicRequest_ok (raw : RawTopicRequest) (req : TopicRequest)
    (h : parseTopicRequest raw = .ok req) :
    parseStr raw.topic = .ok req.topic ∧
    parseOptStr "" raw.field = .ok req.field ∧
    parseOptStr "" raw.keywords = .ok req.keywords ∧
    parseOptStr "" raw.purpose = .ok req.purpose := by
  unfold parseTopicRequest at h
  split at h <;> simp_all <;> subst h <;> simp

theorem parseLitReviewRequest_ok (raw : RawLitReviewRequest)
    (req : LitReviewRequest) (h : parseLitReviewRequest raw = .ok req) :
    parseStr raw.topic = .ok req.topic ∧
    parseOptStr "" raw.field = .ok req.field ∧
    parseOptStr "" raw.keywords = .ok req.keywords ∧
    parseOptStr "최근 5년" raw.scope = .ok req.scope ∧
    parseOptStr "" raw.known_papers = .ok req.known_papers := by
  unfold parseLitReviewRequest at h
  split at h <;> simp_all <;> subst h <;> simp

theorem parseStructureRequest_ok (raw : RawStructureRequest)
    (req : StructureRequest) (h : parseStructureRequest raw = .ok req) :
    parseStr raw.topic = .ok req.topic ∧
    parseOptStr "" raw.field = .ok req.field ∧
    parseOptStr "" raw.keywords = .ok req.keywords ∧
    parseOptStr "원저" raw.paper_type = .ok req.paper_type ∧
    parseOptStr "" raw.methodology = .ok req.methodology := by
  unfold parseStructureRequest at h
  split at h <;> simp_all <;> subst h <;> simp

theorem parseIntroRequest_ok (raw : RawIntroRequest) (req : IntroRequest)
    (h : parseIntroRequest raw = .ok req) :
    parseStr raw.topic = .ok req.topic ∧
    parseOptStr "" raw.field = .ok req.field ∧
    parseOptStr "" raw.keywords = .ok req.keywords ∧
    parseOptStr "한국어" raw.language = .ok req.language := by
  unfold parseIntroRequest at h
  split at h <;> simp_all <;> subst h <;> simp

theorem parseAbstractRequest_ok (raw : RawAbstractRequest)
    (req : AbstractRequest) (h : parseAbstractRequest raw = .ok req) :
    parseStr raw.topic = .ok req.topic ∧
    parseOptStr "" raw.field = .ok req.field ∧
    parseOptStr "" raw.keywords = .ok req.keywords ∧
    parseOptInt 250 raw.word_count = .ok req.word_count ∧
    parseOptStr "한국어" raw.language = .ok req.language := by
  unfold parseAbstractRequest at h
  split at h <;> simp_all <;> subst h <;> simp

theorem parseJournalRequest_ok (raw : RawJournalRequest) (req : JournalRequest)
    (h : parseJournalRequest raw = .ok req) :
    parseStr raw.topic = .ok req.topic ∧
    parseOptStr "" raw.field = .ok req.field ∧
    parseOptStr "" raw.keywords = .ok req.keywords ∧
    parseOptStr "SCI/SCIE" raw.index_type = .ok req.index_type := by
  unfold parseJournalRequest at h
  split at h <;> simp_all <;> subst h <;> simp

theorem parseReviewRequest_ok (raw : RawReviewRequest) (req : ReviewRequest)
    (h : parseReviewRequest raw = .ok req) :
    parseStr raw.topic = .ok req.topic ∧
    parseStr raw.reviewer_comment = .ok req.reviewer_comment ∧
    parseOptStr "한국어" raw.language = .ok req.language := by
  unfold parseReviewRequest at h
  split at h <;> simp_all <;> subst h <;> simp

/-- Every stage handler is call_claude on the prompt it assembles. -/
theorem dispatch_eq (client : Client) (sr : StageReq) :
    dispatch client sr = call_claude client (promptOf sr) := by
  cases sr <;> rfl

/-! ## Validation failure on a missing required field -/

theorem parseTopicRequest_topic_none (raw : RawTopicRequest)
    (h : raw.topic = none) : ∃ e, parseTopicRequest raw = .error e := by
  cases hp : parseTopicRequest raw with
  | error e => exact ⟨e, rfl⟩
  | ok req =>
    have h1 := (parseTopicRequest_ok raw req hp).1
    rw [h] at h1
    simp [parseStr] at h1

theorem parseLitReviewRequest_topic_none (raw : RawLitReviewRequest)
    (h : raw.topic = none) : ∃ e, parseLitReviewRequest raw = .error e := by
  cases hp : parseLitReviewRequest raw with
  | error e => exact ⟨e, rfl⟩
  | ok req =>
    have h1 := (parseLitReviewRequest_ok raw req hp).1
    rw [h] at h1
    simp [parseStr] at h1

theorem parseStructureRequest_topic_none (raw : RawStructureRequest)
    (h : raw.topic = none) : ∃ e, parseStructureRequest raw = .error e := by
  cases hp : parseStructureRequest raw with
  | error e => exact ⟨e, rfl⟩
  | ok req =>
    have h1 := (parseStructureRequest_ok raw req hp).1
    rw [h] at h1
    simp [parseStr] at h1

theorem parseIntroRequest_topic_none (raw : RawIntroRequest)
    (h : raw.topic = none) : ∃ e, parseIntroRequest raw = .error e := by
  cases hp : parseIntroRequest raw with
  | error e => exact ⟨e, rfl⟩
  | ok req =>
    have h1 := (parseIntroRequest_ok raw req hp).1
    rw [h] at h1
    simp [parseStr] at h1

theorem parseAbstractRequest_topic_none (raw : RawAbstractRequest)
    (h : raw.topic = none) : ∃ e, parseAbstractRequest raw = .error e := by
  cases hp : parseAbstractRequest raw with
  | error e => exact ⟨e, rfl⟩
  | ok req =>
    have h1 := (parseAbstractRequest_ok raw req hp).1
    rw [h] at h1
    simp [parseStr] at h1

theorem parseJournalRequest_topic_none (raw : RawJournalRequest)
    (h : raw.topic = none) : ∃ e, parseJournalRequest raw = .error e := by
  cases hp : parseJournalRequest raw with
  | error e => exact ⟨e, rfl⟩
  | ok req =>
    have h1 := (parseJournalRequest_ok raw req hp).1
    rw [h] at h1
    simp [parseStr] at h1

theorem parseReviewRequest_required_none (raw : RawReviewRequest)
    (h : raw.topic = none ∨ raw.reviewer_comment = none) :
    ∃ e, parseReviewRequest raw = .error e := by
  cases hp : parseReviewRequest raw with
  | error e => exact ⟨e, rfl⟩
  | ok req =>
    have h1 := (parseReviewRequest_ok raw req hp).1
    have h2 := (parseReviewRequest_ok raw req hp).2.1
    rcases h with h | h
    · rw [h] at h1
      simp [parseStr] at h1
    · rw [h] at h2
      simp [parseStr] at h2

/-! ## Validated values of optional fields -/

theorem optStr_default {d : String} {v : Option JVal} {w : Option String}
    (h : parseOptStr d v = .ok w) (hv : v = none) : w = some d := by
  rw [hv] at h
  simp [parseOptStr] at h
  exact h.symm

theorem optStr_null {d : String} {v : Option JVal} {w : Option String}
    (h : parseOptStr d v = .ok w) (hv : v = some JVal.null) : w = none := by
  rw [hv] at h
  simp [parseOptStr] at h
  exact h.symm

theorem optInt_default {d : Int} {v : Option JVal} {w : Option Int}
    (h : parseOptInt d v = .ok w) (hv : v = none) : w = some d := by
  rw [hv] at h
  simp [parseOptInt] at h
  exact h.symm

theorem optInt_null {d : Int} {v : Option JVal} {w : Option Int}
    (h : parseOptInt d v = .ok w) (hv : v = some JVal.null) : w = none := by
  rw [hv] at h
  simp [parseOptInt] at h
  exact h.symm

/-! ## Claims -/

/-- C1: for every prompt endpoint, if the provider call succeeds and the
first text block of its response is X, the endpoint returns exactly the
JSON object with status ok and result X, with X passed through
unmodified. -/
theorem claude_success_passthrough (client : Client) (sr : StageReq)
    (X : String) (rest : List ContentBlock)
    (h : client (claudeRequest (promptOf sr)) =
      ProviderOutcome.success ⟨ContentBlock.text X :: rest⟩) :
    (dispatch client sr).1 = Response.json [("status", "ok"), ("result", X)] := by
  rw [dispatch_eq]
  simp [call_claude, h]

/-- Witness for C1 at the topic stage with a canned one-block client. -/
theorem claude_success_passthrough_witness :
    (dispatch stubClient (StageReq.topic ⟨"t", some "", some "", some ""⟩)).1 =
      Response.json [("status", "ok"), ("result", "X")] :=
  claude_success_passthrough stubClient
    (StageReq.topic ⟨"t", some "", some "", some ""⟩) "X" [] rfl

/-- C2: for every prompt endpoint, an authentication failure of the provider
maps to HTTP 401 with a non-empty detail, a rate-limit failure maps to
HTTP 429, any other provider error maps to HTTP 500 with a detail carrying
the provider message; and the provider is called exactly once (no retry). -/
theorem gateway_error_translation (client : Client) (sr : StageReq) :
    (client (claudeRequest (promptOf sr)) = ProviderOutcome.authError →
      (dispatch client sr).1 = Response.error 401 "API 키가 유효하지 않습니다" ∧
      "API 키가 유효하지 않습니다" ≠ "") ∧
    (client (claudeRequest (promptOf sr)) = ProviderOutcome.rateLimitError →
      (dispatch client sr).1 =
        Response.error 429 "API 호출 한도 초과. 잠시 후 다시 시도해주세요") ∧
    (∀ msg, client (claudeRequest (promptOf sr)) = ProviderOutcome.otherError msg →
      (dispatch client sr).1 = Response.error 500 ("AI 분석 중 오류: " ++ msg)) ∧
    (dispatch client sr).2 = [claudeRequest (promptOf sr)] := by
  rw [dispatch_eq]
  refine ⟨fun h => ⟨?_, by decide⟩, fun h => ?_, fun msg h => ?_, ?_⟩ <;>
    simp [call_claude, *]

/-- Witness for C2: the three failure clients at a concrete review request. -/
theorem gateway_error_translation_witness :
    (dispatch authFailClient (StageReq.review ⟨"t", "c", some "한국어"⟩)).1 =
      Response.error 401 "API 키가 유효하지 않습니다" ∧
    (dispatch rateLimitClient (StageReq.review ⟨"t", "c", some "한국어"⟩)).1 =
      Response.error 429 "API 호출 한도 초과. 잠시 후 다시 시도해주세요" ∧
    (dispatch (otherFailClient "boom") (StageReq.review ⟨"t", "c", some "한국어"⟩)).1 =
      Response.error 500 ("AI 분석 중 오류: " ++ "boom") :=
  ⟨((gateway_error_translation authFailClient
      (StageReq.review ⟨"t", "c", some "한국어"⟩)).1 rfl).1,
   (gateway_error_translation rateLimitClient
      (StageReq.review ⟨"t", "c", some "한국어"⟩)).2.1 rfl,
   (gateway_error_translation (otherFailClient "boom")
      (StageReq.review ⟨"t", "c", some "한국어"⟩)).2.2.1 "boom" rfl⟩

/-- C3: a request missing a required field (the topic everywhere, also the
reviewer comment on /api/review-response) is rejected by request-schema
validation with HTTP 422 and no provider call is made. -/
theorem required_field_rejection (client : Client) (raw : RawStageReq)
    (h : requiredMissing raw) :
    (route client raw).2 = [] ∧
    ∃ e, (route client raw).1 = Response.error 422 e := by
  cases raw with
  | topic r =>
    obtain ⟨e, he⟩ := parseTopicRequest_topic_none r h
    exact ⟨by simp [route, topicEndpoint, he], e, by simp [route, topicEndpoint, he]⟩
  | literature r =>
    obtain ⟨e, he⟩ := parseLitReviewRequest_topic_none r h
    exact ⟨by simp [route, litReviewEndpoint, he], e,
      by simp [route, litReviewEndpoint, he]⟩
  | paperStructure r =>
    obtain ⟨e, he⟩ := parseStructureRequest_topic_none r h
    exact ⟨by simp [route, structureEndpoint, he], e,
      by simp [route, structureEndpoint, he]⟩
  | introduction r =>
    obtain ⟨e, he⟩ := parseIntroRequest_topic_none r h
    exact ⟨by simp [route, introEndpoint, he], e, by simp [route, introEndpoint, he]⟩
  | abstract r =>
    obtain ⟨e, he⟩ := parseAbstractRequest_topic_none r h
    exact ⟨by simp [route, abstractEndpoint, he], e,
      by simp [route, abstractEndpoint, he]⟩
  | journal r =>
    obtain ⟨e, he⟩ := parseJournalRequest_topic_none r h
    exact ⟨by simp [route, journalEndpoint, he], e,
      by simp [route, journalEndpoint, he]⟩
  | review r =>
    obtain ⟨e, he⟩ := parseReviewRequest_required_none r h
    exact ⟨by simp [route, reviewEndpoint, he], e, by simp [route, reviewEndpoint, he]⟩

/-- Witness for C3: a topic request with no fields at all is rejected and
issues no provider call. -/
theorem required_field_rejection_witness :
    (route stubClient (RawStageReq.topic ⟨none, none, none, none⟩)).2 = [] :=
  (required_field_rejection stubClient
    (RawStageReq.topic ⟨none, none, none, none⟩) rfl).1

/-- C8: GET /health returns exactly the status-ok object and issues no
provider call, independently of the client. -/
theorem health_no_gateway (client : Client) :
    healthRoute client = (Response.json [("status", "ok")], []) := rfl

/-- C10: call_claude answers every provider outcome with either the success
JSON or an HTTP error among 401, 429, 500; in particular a successful
message with an empty content list is surfaced as HTTP 500 whose detail
begins with the generic prefix, never as an unhandled crash. -/
theorem call_claude_total_mapping (client : Client) (prompt : String) :
    ((∃ body, (call_claude client prompt).1 = Response.json body) ∨
      (∃ d, (call_claude client prompt).1 = Response.error 401 d) ∨
      (∃ d, (call_claude client prompt).1 = Response.error 429 d) ∨
      (∃ d, (call_claude client prompt).1 = Response.error 500 d)) ∧
    (client (claudeRequest prompt) = ProviderOutcome.success ⟨[]⟩ →
      (call_claude client prompt).1 =
        Response.error 500 ("AI 분석 중 오류: " ++ "list index out of range") ∧
      ∃ tail, "AI 분석 중 오류: " ++ "list index out of range" =
        "AI 분석 중 오류:" ++ tail) := by
  constructor
  · cases hc : client (claudeRequest prompt) with
    | success m =>
      obtain ⟨content⟩ := m
      cases content with
      | nil =>
        exact .inr (.inr (.inr ⟨"AI 분석 중 오류: " ++ "list index out of range",
          by simp [call_claude, hc]⟩))
      | cons b rest =>
        cases b with
        | text t =>
          exact .inl ⟨[("status", "ok"), ("result", t)], by simp [call_claude, hc]⟩
    | authError =>
      exact .inr (.inl ⟨"API 키가 유효하지 않습니다", by simp [call_claude, hc]⟩)
    | rateLimitError =>
      exact .inr (.inr (.inl ⟨"API 호출 한도 초과. 잠시 후 다시 시도해주세요",
        by simp [call_claude, hc]⟩))
    | otherError msg =>
      exact .inr (.inr (.inr ⟨"AI 분석 중 오류: " ++ msg, by simp [call_claude, hc]⟩))
  · intro h
    exact ⟨by simp [call_claude, h], " list index out of range", by decide⟩

/-- Witness for C10 with a client whose message has no content blocks. -/
theorem call_claude_total_mapping_witness :
    (call_claude emptyContentClient "p").1 =
      Response.error 500 ("AI 분석 중 오류: " ++ "list index out of range") :=
  ((call_claude_total_mapping emptyContentClient "p").2 rfl).1

/-- C4: on every prompt endpoint, whenever an optional field is absent from
an accepted request the assembled prompt contains the declared default
placeholder text for that field, and the provider is invoked exactly once
with that prompt. -/
theorem absent_optional_default_in_prompt :
    (∀ (client : Client) (raw : RawTopicRequest) (req : TopicRequest),
      parseTopicRequest raw = .ok req →
      (topicEndpoint client raw).2 = [claudeRequest (topicPrompt req)] ∧
      (raw.field = none → containsStr (topicPrompt req) "미지정") ∧
      (raw.keywords = none → containsStr (topicPrompt req) "미지정") ∧
      (raw.purpose = none → containsStr (topicPrompt req) "미지정")) ∧
    (∀ (client : Client) (raw : RawLitReviewRequest) (req : LitReviewRequest),
      parseLitReviewRequest raw = .ok req →
      (litReviewEndpoint client raw).2 = [claudeRequest (litReviewPrompt req)] ∧
      (raw.field = none → containsStr (litReviewPrompt req) "미지정") ∧
      (raw.keywords = none → containsStr (litReviewPrompt req) "미지정") ∧
      (raw.scope = none → containsStr (litReviewPrompt req) "최근 5년") ∧
      (raw.known_papers = none → containsStr (litReviewPrompt req) "없음")) ∧
    (∀ (client : Client) (raw : RawStructureRequest) (req : StructureRequest),
      parseStructureRequest raw = .ok req →
      (structureEndpoint client raw).2 = [claudeRequest (structurePrompt req)] ∧
      (raw.field = none → containsStr (structurePrompt req) "미지정") ∧
      (raw.keywords = none → containsStr (structurePrompt req) "미지정") ∧
      (raw.paper_type = none → containsStr (structurePrompt req) "원저") ∧
      (raw.methodology = none → containsStr (structurePrompt req) "미지정")) ∧
    (∀ (client : Client) (raw : RawIntroRequest) (req : IntroRequest),
      parseIntroRequest raw = .ok req →
      (introEndpoint client raw).2 = [claudeRequest (introPrompt req)] ∧
      (raw.field = none → containsStr (introPrompt req) "미지정") ∧
      (raw.keywords = none → containsStr (introPrompt req) "미지정") ∧
      (raw.language = none → containsStr (introPrompt req) "한국어")) ∧
    (∀ (client : Client) (raw : RawAbstractRequest) (req : AbstractRequest),
      parseAbstractRequest raw = .ok req →
      (abstractEndpoint client raw).2 = [claudeRequest (abstractPrompt req)] ∧
      (raw.field = none → containsStr (abstractPrompt req) "미지정") ∧
      (raw.keywords = none → containsStr (abstractPrompt req) "미지정") ∧
      (raw.word_count = none → containsStr (abstractPrompt req) "250") ∧
      (raw.language = none → containsStr (abstractPrompt req) "한국어")) ∧
    (∀ (client : Client) (raw : RawJournalRequest) (req : JournalRequest),
      parseJournalRequest raw = .ok req →
      (journalEndpoint client raw).2 = [claudeRequest (journalPrompt req)] ∧
      (raw.field = none → containsStr (journalPrompt req) "미지정") ∧
      (raw.keywords = none → containsStr (journalPrompt req) "미지정") ∧
      (raw.index_type = none → containsStr (journalPrompt req) "SCI/SCIE")) ∧
    (∀ (client : Client) (raw : RawReviewRequest) (req : ReviewRequest),
      parseReviewRequest raw = .ok req →
      (reviewEndpoint client raw).2 = [claudeRequest (reviewPrompt req)] ∧
      (raw.language = none → containsStr (reviewPrompt req) "한국어")) := by
  refine ⟨?_, ?_, ?_, ?_, ?_, ?_, ?_⟩
  · intro client raw req hp
    obtain ⟨h1, h2, h3, h4⟩ := parseTopicRequest_ok raw req hp
    refine ⟨by simp [topicEndpoint, hp, analyze_topic, call_claude], ?_, ?_, ?_⟩
    · intro hf
      have hv := optStr_default h2 hf
      unfold containsStr topicPrompt
      simp only [hv, pyOr, String.data_append, List.append_assoc, if_pos, reduceIte]
      repeat first
      | exact infixOf_take _ _
      | apply infixOf_skip
    · intro hf
      have hv := optStr_default h3 hf
      unfold containsStr topicPrompt
      simp only [hv, pyOr, String.data_append, List.append_assoc, if_pos, reduceIte]
      repeat first
      | exact infixOf_take _ _
      | apply infixOf_skip
    · intro hf
      have hv := optStr_default h4 hf
      unfold containsStr topicPrompt
      simp only [hv, pyOr, String.data_append, List.append_assoc, if_pos, reduceIte]
      repeat first
      | exact infixOf_take _ _
      | apply infixOf_skip
  · intro client raw req hp
    obtain ⟨h1, h2, h3, h4, h5⟩ := parseLitReviewRequest_ok raw req hp
    refine ⟨by simp [litReviewEndpoint, hp, literature_review, call_claude],
      ?_, ?_, ?_, ?_⟩
    · intro hf
      have hv := optStr_default h2 hf
      unfold containsStr litReviewPrompt
      simp only [hv, pyOr, fstr, String.data_append, List.append_assoc, if_pos,
        reduceIte]
      repeat first
      | exact infixOf_take _ _
      | apply infixOf_skip
    · intro hf
      have hv := optStr_default h3 hf
      unfold containsStr litReviewPrompt
      simp only [hv, pyOr, fstr, String.data_append, List.append_assoc, if_pos,
        reduceIte]
      repeat first
      | exact infixOf_take _ _
      | apply infixOf_skip
    · intro hf
      have hv := optStr_default h4 hf
      unfold containsStr litReviewPrompt
      simp only [hv, pyOr, fstr, String.data_append, List.append_assoc, if_pos,
        reduceIte]
      repeat first
      | exact infixOf_take _ _
      | apply infixOf_skip
    · intro hf
      have hv := optStr_default h5 hf
      unfold containsStr litReviewPrompt
      simp only [hv, pyOr, fstr, String.data_append, List.append_assoc, if_pos,
        reduceIte]
      repeat first
      | exact infixOf_take _ _
      | apply infixOf_skip
  · intro client raw req hp
    obtain ⟨h1, h2, h3, h4, h5⟩ := parseStructureRequest_ok raw req hp
    refine ⟨by simp [structureEndpoint, hp, paper_structure, call_claude],
      ?_, ?_, ?_, ?_⟩
    · intro hf
      have hv := optStr_default h2 hf
      unfold containsStr structurePrompt
      simp only [hv, pyOr, fstr, String.data_append, List.append_assoc, if_pos,
        reduceIte]
      repeat first
      | exact infixOf_take _ _
      | apply infixOf_skip
    · intro hf
      have hv := optStr_default h3 hf
      unfold containsStr structurePrompt
      simp only [hv, pyOr, fstr, String.data_append, List.append_assoc, if_pos,
        reduceIte]
      repeat first
      | exact infixOf_take _ _
      | apply infixOf_skip
    · intro hf
      have hv := optStr_default h4 hf
      unfold containsStr structurePrompt
      simp only [hv, pyOr, fstr, String.data_append, List.append_assoc, if_pos,
        reduceIte]
      repeat first
      | exact infixOf_take _ _
      | apply infixOf_skip
    · intro hf
      have hv := optStr_default h5 hf
      unfold containsStr structurePrompt
      simp only [hv, pyOr, fstr, String.data_append, List.append_assoc, if_pos,
        reduceIte]
      repeat first
      | exact infixOf_take _ _
      | apply infixOf_skip
  · intro client raw req hp
    obtain ⟨h1, h2, h3, h4⟩ := parseIntroRequest_ok raw req hp
    refine ⟨by simp [introEndpoint, hp, write_introduction, call_claude],
      ?_, ?_, ?_⟩
    · intro hf
      have hv := optStr_default h2 hf
      unfold containsStr introPrompt
      simp only [hv, pyOr, fstr, String.data_append, List.append_assoc, if_pos,
        reduceIte]
      repeat first
      | exact infixOf_take _ _
      | apply infixOf_skip
    · intro hf
      have hv := optStr_default h3 hf
      unfold containsStr introPrompt
      simp only [hv, pyOr, fstr, String.data_append, List.append_assoc, if_pos,
        reduceIte]
      repeat first
      | exact infixOf_take _ _
      | apply infixOf_skip
    · intro hf
      have hv := optStr_default h4 hf
      unfold containsStr introPrompt
      simp only [hv, pyOr, fstr, String.data_append, List.append_assoc, if_pos,
        reduceIte]
      repeat first
      | exact infixOf_take _ _
      | apply infixOf_skip
  · intro client raw req hp
    obtain ⟨h1, h2, h3, h4, h5⟩ := parseAbstractRequest_ok raw req hp
    refine ⟨by simp [abstractEndpoint, hp, generate_abstract, call_claude],
      ?_, ?_, ?_, ?_⟩
    · intro hf
      have hv := optStr_default h2 hf
      unfold containsStr abstractPrompt
      simp only [hv, pyOr, fstr, fstrInt, String.data_append, List.append_assoc,
        if_pos, reduceIte]
      repeat first
      | exact infixOf_take _ _
      | apply infixOf_skip
    · intro hf
      have hv := optStr_default h3 hf
      unfold containsStr abstractPrompt
      simp only [hv, pyOr, fstr, fstrInt, String.data_append, List.append_assoc,
        if_pos, reduceIte]
      repeat first
      | exact infixOf_take _ _
      | apply infixOf_skip
    · intro hf
      have hv := optInt_default h4 hf
      have h250 : toString (250 : Int) = "250" := rfl
      unfold containsStr abstractPrompt
      simp only [hv, pyOr, fstr, fstrInt, h250, String.data_append,
        List.append_assoc, if_pos, reduceIte]
      repeat first
      | exact infixOf_take _ _
      | apply infixOf_skip
    · intro hf
      have hv := optStr_default h5 hf
      unfold containsStr abstractPrompt
      simp only [hv, pyOr, fstr, fstrInt, String.data_append, List.append_assoc,
        if_pos, reduceIte]
      repeat first
      | exact infixOf_take _ _
      | apply infixOf_skip
  · intro client raw req hp
    obtain ⟨h1, h2, h3, h4⟩ := parseJournalRequest_ok raw req hp
    refine ⟨by simp [journalEndpoint, hp, match_journal, call_claude],
      ?_, ?_, ?_⟩
    · intro hf
      have hv := optStr_default h2 hf
      unfold containsStr journalPrompt
      simp only [hv, pyOr, fstr, String.data_append, List.append_assoc, if_pos,
        reduceIte]
      repeat first
      | exact infixOf_take _ _
      | apply infixOf_skip
    · intro hf
      have hv := optStr_default h3 hf
      unfold containsStr journalPrompt
      simp only [hv, pyOr, fstr, String.data_append, List.append_assoc, if_pos,
        reduceIte]
      repeat first
      | exact infixOf_take _ _
      | apply infixOf_skip
    · intro hf
      have hv := optStr_default h4 hf
      unfold containsStr journalPrompt
      simp only [hv, pyOr, fstr, String.data_append, List.append_assoc, if_pos,
        reduceIte]
      repeat first
      | exact infixOf_take _ _
      | apply infixOf_skip
  · intro client raw req hp
    obtain ⟨h1, h2, h3⟩ := parseReviewRequest_ok raw req hp
    refine ⟨by simp [reviewEndpoint, hp, review_response, call_claude], ?_⟩
    · intro hf
      have hv := optStr_default h3 hf
      unfold containsStr reviewPrompt
      simp only [hv, pyOr, fstr, String.data_append, List.append_assoc, if_pos,
        reduceIte]
      repeat first
      | exact infixOf_take _ _
      | apply infixOf_skip

/-- Witness for C4: the topic endpoint on a body with only the topic field
renders the placeholder. -/
theorem absent_optional_default_in_prompt_witness :
    containsStr (topicPrompt ⟨"t", some "", some "", some ""⟩) "미지정" :=
  ((absent_optional_default_in_prompt.1 stubClient
      ⟨some (JVal.s "t"), none, none, none⟩
      ⟨"t", some "", some "", some ""⟩ rfl).2.1) rfl

/-- C5 counterexample: with the scope field absent, the accepted literature
request carries the Korean default 최근 5년, which is not the string
recent 5 years claimed by the table. -/
theorem scope_default_not_english :
    parseLitReviewRequest ⟨some (JVal.s "t"), none, none, none, none⟩ =
      Except.ok ⟨"t", some "", some "", some "최근 5년", some ""⟩ ∧
    (some "최근 5년" : Option String) ≠ some "recent 5 years" :=
  ⟨rfl, by decide⟩

/-- C5 amended: the defaults substituted for the absent optional fields of
the §6 table are the Korean strings of the source — scope 최근 5년 on
/api/literature, paper_type 원저 on /api/structure, language 한국어 on
/api/introduction, /api/abstract and /api/review-response — and these
default strings appear in the assembled prompt. -/
theorem korean_defaults_in_prompt :
    (∀ (raw : RawLitReviewRequest) (req : LitReviewRequest),
      parseLitReviewRequest raw = .ok req → raw.scope = none →
      req.scope = some "최근 5년" ∧ containsStr (litReviewPrompt req) "최근 5년") ∧
    (∀ (raw : RawStructureRequest) (req : StructureRequest),
      parseStructureRequest raw = .ok req → raw.paper_type = none →
      req.paper_type = some "원저" ∧ containsStr (structurePrompt req) "원저") ∧
    (∀ (raw : RawIntroRequest) (req : IntroRequest),
      parseIntroRequest raw = .ok req → raw.language = none →
      req.language = some "한국어" ∧ containsStr (introPrompt req) "한국어") ∧
    (∀ (raw : RawAbstractRequest) (req : AbstractRequest),
      parseAbstractRequest raw = .ok req → raw.language = none →
      req.language = some "한국어" ∧ containsStr (abstractPrompt req) "한국어") ∧
    (∀ (raw : RawReviewRequest) (req : ReviewRequest),
      parseReviewRequest raw = .ok req → raw.language = none →
      req.language = some "한국어" ∧ containsStr (reviewPrompt req) "한국어") := by
  refine ⟨?_, ?_, ?_, ?_, ?_⟩
  · intro raw req hp hf
    have hv := optStr_default (parseLitReviewRequest_ok raw req hp).2.2.2.1 hf
    refine ⟨hv, ?_⟩
    unfold containsStr litReviewPrompt
    simp only [hv, fstr, String.data_append, List.append_assoc]
    repeat first
    | exact infixOf_take _ _
    | apply infixOf_skip
  · intro raw req hp hf
    have hv := optStr_default (parseStructureRequest_ok raw req hp).2.2.2.1 hf
    refine ⟨hv, ?_⟩
    unfold containsStr structurePrompt
    simp only [hv, fstr, String.data_append, List.append_assoc]
    repeat first
    | exact infixOf_take _ _
    | apply infixOf_skip
  · intro raw req hp hf
    have hv := optStr_default (parseIntroRequest_ok raw req hp).2.2.2 hf
    refine ⟨hv, ?_⟩
    unfold containsStr introPrompt
    simp only [hv, fstr, String.data_append, List.append_assoc]
    repeat first
    | exact infixOf_take _ _
    | apply infixOf_skip
  · intro raw req hp hf
    have hv := optStr_default (parseAbstractRequest_ok raw req hp).2.2.2.2 hf
    refine ⟨hv, ?_⟩
    unfold containsStr abstractPrompt
    simp only [hv, fstr, String.data_append, List.append_assoc]
    repeat first
    | exact infixOf_take _ _
    | apply infixOf_skip
  · intro raw req hp hf
    have hv := optStr_default (parseReviewRequest_ok raw req hp).2.2 hf
    refine ⟨hv, ?_⟩
    unfold containsStr reviewPrompt
    simp only [hv, fstr, String.data_append, List.append_assoc]
    repeat first
    | exact infixOf_take _ _
    | apply infixOf_skip

/-- Witness for the amended C5 at a literature body whose scope is absent. -/
theorem korean_defaults_in_prompt_witness :
    (⟨"t", some "", some "", some "최근 5년", some ""⟩ :
      LitReviewRequest).scope = some "최근 5년" ∧
    containsStr (litReviewPrompt ⟨"t", some "", some "", some "최근 5년", some ""⟩)
      "최근 5년" :=
  korean_defaults_in_prompt.1 ⟨some (JVal.s "t"), none, none, none, none⟩
    ⟨"t", some "", some "", some "최근 5년", some ""⟩ rfl rfl

/-- C9: supplying JSON null for an optional field whose default is a
non-empty string or number (scope, paper_type, language, index_type,
word_count) is accepted and interpolates Python None, rendering the literal
text None in the prompt; the or-guarded empty-default fields (field,
keywords, purpose, methodology, known_papers) fall back to their
placeholder when null. -/
theorem null_optional_rendering :
    (∀ (t : String), parseLitReviewRequest
      ⟨some (JVal.s t), some JVal.null, some JVal.null, some JVal.null,
        some JVal.null⟩ = Except.ok ⟨t, none, none, none, none⟩) ∧
    (∀ (t : String), parseAbstractRequest
      ⟨some (JVal.s t), some JVal.null, some JVal.null, some JVal.null,
        some JVal.null⟩ = Except.ok ⟨t, none, none, none, none⟩) ∧
    (∀ (raw : RawLitReviewRequest) (req : LitReviewRequest),
      parseLitReviewRequest raw = .ok req → raw.scope = some JVal.null →
      req.scope = none ∧ containsStr (litReviewPrompt req) "None") ∧
    (∀ (raw : RawStructureRequest) (req : StructureRequest),
      parseStructureRequest raw = .ok req → raw.paper_type = some JVal.null →
      req.paper_type = none ∧ containsStr (structurePrompt req) "None") ∧
    (∀ (raw : RawIntroRequest) (req : IntroRequest),
      parseIntroRequest raw = .ok req → raw.language = some JVal.null →
      req.language = none ∧ containsStr (introPrompt req) "None") ∧
    (∀ (raw : RawAbstractRequest) (req : AbstractRequest),
      parseAbstractRequest raw = .ok req → raw.word_count = some JVal.null →
      req.word_count = none ∧ containsStr (abstractPrompt req) "None") ∧
    (∀ (raw : RawAbstractRequest) (req : AbstractRequest),
      parseAbstractRequest raw = .ok req → raw.language = some JVal.null →
      req.language = none ∧ containsStr (abstractPrompt req) "None") ∧
    (∀ (raw : RawJournalRequest) (req : JournalRequest),
      parseJournalRequest raw = .ok req → raw.index_type = some JVal.null →
      req.index_type = none ∧ containsStr (journalPrompt req) "None") ∧
    (∀ (raw : RawReviewRequest) (req : ReviewRequest),
      parseReviewRequest raw = .ok req → raw.language = some JVal.null →
      req.language = none ∧ containsStr (reviewPrompt req) "None") ∧
    (∀ (raw : RawTopicRequest) (req : TopicRequest),
      parseTopicRequest raw = .ok req → raw.field = some JVal.null →
      req.field = none ∧ containsStr (topicPrompt req) "미지정") ∧
    (∀ (raw : RawTopicRequest) (req : TopicRequest),
      parseTopicRequest raw = .ok req → raw.keywords = some JVal.null →
      req.keywords = none ∧ containsStr (topicPrompt req) "미지정") ∧
    (∀ (raw : RawTopicRequest) (req : TopicRequest),
      parseTopicRequest raw = .ok req → raw.purpose = some JVal.null →
      req.purpose = none ∧ containsStr (topicPrompt req) "미지정") ∧
    (∀ (raw : RawStructureRequest) (req : StructureRequest),
      parseStructureRequest raw = .ok req → raw.methodology = some JVal.null →
      req.methodology = none ∧ containsStr (structurePrompt req) "미지정") ∧
    (∀ (raw : RawLitReviewRequest) (req : LitReviewRequest),
      parseLitReviewRequest raw = .ok req → raw.known_papers = some JVal.null →
      req.known_papers = none ∧ containsStr (litReviewPrompt req) "없음") := by
  refine ⟨fun t => rfl, fun t => rfl, ?_, ?_, ?_, ?_, ?_, ?_, ?_, ?_, ?_, ?_, ?_, ?_⟩
  · intro raw req hp hf
    have hv := optStr_null (parseLitReviewRequest_ok raw req hp).2.2.2.1 hf
    refine ⟨hv, ?_⟩
    unfold containsStr litReviewPrompt
    simp only [hv, fstr, String.data_append, List.append_assoc]
    repeat first
    | exact infixOf_take _ _
    | apply infixOf_skip
  · intro raw req hp hf
    have hv := optStr_null (parseStructureRequest_ok raw req hp).2.2.2.1 hf
    refine ⟨hv, ?_⟩
    unfold containsStr structurePrompt
    simp only [hv, fstr, String.data_append, List.append_assoc]
    repeat first
    | exact infixOf_take _ _
    | apply infixOf_skip
  · intro raw req hp hf
    have hv := optStr_null (parseIntroRequest_ok raw req hp).2.2.2 hf
    refine ⟨hv, ?_⟩
    unfold containsStr introPrompt
    simp only [hv, fstr, String.data_append, List.append_assoc]
    repeat first
    | exact infixOf_take _ _
    | apply infixOf_skip
  · intro raw req hp hf
    have hv := optInt_null (parseAbstractRequest_ok raw req hp).2.2.2.1 hf
    refine ⟨hv, ?_⟩
    unfold containsStr abstractPrompt
    simp only [hv, fstr, fstrInt, String.data_append, List.append_assoc]
    repeat first
    | exact infixOf_take _ _
    | apply infixOf_skip
  · intro raw req hp hf
    have hv := optStr_null (parseAbstractRequest_ok raw req hp).2.2.2.2 hf
    refine ⟨hv, ?_⟩
    unfold containsStr abstractPrompt
    simp only [hv, fstr, fstrInt, String.data_append, List.append_assoc]
    repeat first
    | exact infixOf_take _ _
    | apply infixOf_skip
  · intro raw req hp hf
    have hv := optStr_null (parseJournalRequest_ok raw req hp).2.2.2 hf
    refine ⟨hv, ?_⟩
    unfold containsStr journalPrompt
    simp only [hv, fstr, String.data_append, List.append_assoc]
    repeat first
    | exact infixOf_take _ _
    | apply infixOf_skip
  · intro raw req hp hf
    have hv := optStr_null (parseReviewRequest_ok raw req hp).2.2 hf
    refine ⟨hv, ?_⟩
    unfold containsStr reviewPrompt
    simp only [hv, fstr, String.data_append, List.append_assoc]
    repeat first
    | exact infixOf_take _ _
    | apply infixOf_skip
  · intro raw req hp hf
    have hv := optStr_null (parseTopicRequest_ok raw req hp).2.1 hf
    refine ⟨hv, ?_⟩
    unfold containsStr topicPrompt
    simp only [hv, pyOr, String.data_append, List.append_assoc]
    repeat first
    | exact infixOf_take _ _
    | apply infixOf_skip
  · intro raw req hp hf
    have hv := optStr_null (parseTopicRequest_ok raw req hp).2.2.1 hf
    refine ⟨hv, ?_⟩
    unfold containsStr topicPrompt
    simp only [hv, pyOr, String.data_append, List.append_assoc]
    repeat first
    | exact infixOf_take _ _
    | apply infixOf_skip
  · intro raw req hp hf
    have hv := optStr_null (parseTopicRequest_ok raw req hp).2.2.2 hf
    refine ⟨hv, ?_⟩
    unfold containsStr topicPrompt
    simp only [hv, pyOr, String.data_append, List.append_assoc]
    repeat first
    | exact infixOf_take _ _
    | apply infixOf_skip
  · intro raw req hp hf
    have hv := optStr_null (parseStructureRequest_ok raw req hp).2.2.2.2 hf
    refine ⟨hv, ?_⟩
    unfold containsStr structurePrompt
    simp only [hv, pyOr, fstr, String.data_append, List.append_assoc]
    repeat first
    | exact infixOf_take _ _
    | apply infixOf_skip
  · intro raw req hp hf
    have hv := optStr_null (parseLitReviewRequest_ok raw req hp).2.2.2.2 hf
    refine ⟨hv, ?_⟩
    unfold containsStr litReviewPrompt
    simp only [hv, pyOr, fstr, String.data_append, List.append_assoc]
    repeat first
    | exact infixOf_take _ _
    | apply infixOf_skip

/-- Witness for C9: a literature body with a null scope is accepted and its
prompt renders the literal text None. -/
theorem null_optional_rendering_witness :
    (⟨"t", some "", some "", none, some ""⟩ : LitReviewRequest).scope = none ∧
    containsStr (litReviewPrompt ⟨"t", some "", some "", none, some ""⟩) "None" :=
  null_optional_rendering.2.2.1
    ⟨some (JVal.s "t"), none, none, some JVal.null, none⟩
    ⟨"t", some "", some "", none, some ""⟩ rfl rfl

/-- C6 counterexample: on /api/review-response the reviewer comment alone is
not enough — a body carrying reviewer_comment but no topic is rejected, so
the record does not have exactly one required field. -/
theorem review_two_required_fields :
    parseReviewRequest ⟨none, some (JVal.s "심사 의견"), none⟩ =
      Except.error "field required" := rfl

/-- C6 amended: each of the six non-review prompt endpoints has exactly the
topic as its one required field (a body with only the topic is accepted, a
body without the topic is rejected), while /api/review-response has exactly
two required fields, topic and reviewer_comment; all remaining fields are
optional with declared defaults. -/
theorem required_field_counts :
    ((∀ t : String, parseTopicRequest ⟨some (JVal.s t), none, none, none⟩ =
        Except.ok ⟨t, some "", some "", some ""⟩) ∧
      (∀ raw : RawTopicRequest, raw.topic = none →
        ∃ e, parseTopicRequest raw = .error e)) ∧
    ((∀ t : String, parseLitReviewRequest ⟨some (JVal.s t), none, none, none, none⟩ =
        Except.ok ⟨t, some "", some "", some "최근 5년", some ""⟩) ∧
      (∀ raw : RawLitReviewRequest, raw.topic = none →
        ∃ e, parseLitReviewRequest raw = .error e)) ∧
    ((∀ t : String, parseStructureRequest ⟨some (JVal.s t), none, none, none, none⟩ =
        Except.ok ⟨t, some "", some "", some "원저", some ""⟩) ∧
      (∀ raw : RawStructureRequest, raw.topic = none →
        ∃ e, parseStructureRequest raw = .error e)) ∧
    ((∀ t : String, parseIntroRequest ⟨some (JVal.s t), none, none, none⟩ =
        Except.ok ⟨t, some "", some "", some "한국어"⟩) ∧
      (∀ raw : RawIntroRequest, raw.topic = none →
        ∃ e, parseIntroRequest raw = .error e)) ∧
    ((∀ t : String, parseAbstractRequest ⟨some (JVal.s t), none, none, none, none⟩ =
        Except.ok ⟨t, some "", some "", some 250, some "한국어"⟩) ∧
      (∀ raw : RawAbstractRequest, raw.topic = none →
        ∃ e, parseAbstractRequest raw = .error e)) ∧
    ((∀ t : String, parseJournalRequest ⟨some (JVal.s t), none, none, none⟩ =
        Except.ok ⟨t, some "", some "", some "SCI/SCIE"⟩) ∧
      (∀ raw : RawJournalRequest, raw.topic = none →
        ∃ e, parseJournalRequest raw = .error e)) ∧
    ((∀ t c : String, parseReviewRequest ⟨some (JVal.s t), some (JVal.s c), none⟩ =
        Except.ok ⟨t, c, some "한국어"⟩) ∧
      (∀ raw : RawReviewRequest, raw.topic = none ∨ raw.reviewer_comment = none →
        ∃ e, parseReviewRequest raw = .error e)) :=
  ⟨⟨fun _ => rfl, parseTopicRequest_topic_none⟩,
   ⟨fun _ => rfl, parseLitReviewRequest_topic_none⟩,
   ⟨fun _ => rfl, parseStructureRequest_topic_none⟩,
   ⟨fun _ => rfl, parseIntroRequest_topic_none⟩,
   ⟨fun _ => rfl, parseAbstractRequest_topic_none⟩,
   ⟨fun _ => rfl, parseJournalRequest_topic_none⟩,
   ⟨fun _ _ => rfl, parseReviewRequest_required_none⟩⟩

/-- Witness for the amended C6: a review body missing only the reviewer
comment is rejected. -/
theorem required_field_counts_witness :
    ∃ e, parseReviewRequest ⟨some (JVal.s "t"), none, none⟩ = .error e :=
  required_field_counts.2.2.2.2.2.2.2 ⟨some (JVal.s "t"), none, none⟩
    (Or.inr rfl)

/-- C7 counterexample: a word_count that is not coercible to an integer is
answered with the 422 validation error and no provider call — it is not
silently replaced by the default 250. -/
theorem malformed_word_count_rejected :
    abstractEndpoint stubClient
      ⟨some (JVal.s "t"), none, none, some (JVal.s "많이"), none⟩ =
      (Response.error 422 "value is not a valid integer", []) := rfl

/-- C7 amended: an absent optional field is silently defaulted and the
accepted request reaches the provider exactly once, but a malformed
optional field — a word_count string not coercible to an integer — is
rejected by request-schema validation before any provider call. -/
theorem optional_field_validation :
    (∀ (client : Client) (raw : RawAbstractRequest) (req : AbstractRequest),
      parseAbstractRequest raw = .ok req →
      (abstractEndpoint client raw).2 = [claudeRequest (abstractPrompt req)]) ∧
    (∀ (client : Client) (raw : RawAbstractRequest) (v : String),
      raw.word_count = some (JVal.s v) → pyIntOfString v = none →
      (abstractEndpoint client raw).2 = [] ∧
      ∃ e, (abstractEndpoint client raw).1 = Response.error 422 e) := by
  constructor
  · intro client raw req hp
    simp [abstractEndpoint, hp, generate_abstract, call_claude]
  · intro client raw v hw hv
    have herr : ∃ e, parseAbstractRequest raw = .error e := by
      cases hp : parseAbstractRequest raw with
      | error e => exact ⟨e, rfl⟩
      | ok req =>
        have h4 := (parseAbstractRequest_ok raw req hp).2.2.2.1
        rw [hw] at h4
        simp [parseOptInt, hv] at h4
    obtain ⟨e, he⟩ := herr
    exact ⟨by simp [abstractEndpoint, he], e, by simp [abstractEndpoint, he]⟩

/-- Witness for the amended C7: the non-numeric word_count abc yields no
provider call. -/
theorem optional_field_validation_witness :
    (abstractEndpoint stubClient
      ⟨some (JVal.s "t"), none, none, some (JVal.s "abc"), none⟩).2 = [] :=
  (optional_field_validation.2 stubClient
    ⟨some (JVal.s "t"), none, none, some (JVal.s "abc"), none⟩ "abc" rfl rfl).1

end WisePaper
